import Mathlib

/-!
Verification development for the OneDrive/Excel synchronization subsystem of the
InvoiceScannerApp repository.

The definitions below are a shallow embedding of the TypeScript services:

* `src/src/services/microsoftService.ts` — the current `MicrosoftService` revision
  (token handling, folder provisioning, upload orchestration, Excel row sync);
* `src/unnamed/part_006` — the large service file holding two further
  `MicrosoftService` revisions, in particular `syncToExcel`, `findExistingRow`,
  `appendRowToExcel`, `ensureExcelTableExists`, `appendToWorksheetDirectly`,
  `deleteExcelRow` and the sharing-URL revision of `deleteFileFromOneDrive`;
* `src/src/services/invoiceService.ts` — the orchestrator persisting sync-status flags.

Remote HTTP responses are passed in as explicit oracle parameters (a `Bool` or an
`Option`-valued outcome per request), and every stateful operation is written in
state-passing style over explicit state types (the workbook table as a list of rows,
the drive as a list of item paths, client-side storage as a record of optional keys).
JavaScript numbers that the service only stores and compares (sequence ids, amounts,
epoch milliseconds) are modelled as `Nat`/`Int`; JS truthiness of a numeric field is
modelled as `≠ 0`.
-/

namespace InvoiceScanner

/-- A cell value of the remote workbook: the service stores either a JS number or a
string into each cell, and compares cells with JS strict equality `===` (which is
false across the number/string distinction). -/
inductive Cell where
  | num (n : Int)
  | str (s : String)
  deriving DecidableEq

/-- One remote table row: the ordered list of its cell values
(`row.values[0]` in the source). -/
abbrev Row := List Cell

/-- The relevant fields of an invoice record as consumed by the sync code
(`invoice.sequence_id`, `invoice.customer_name`, ...). `sequence_id` is the
auto-incrementing integer join key; JS truthiness of `sequence_id` is `≠ 0`. -/
structure Invoice where
  sequence_id : Nat
  customer_name : String
  invoice_date : String
  description_category : String
  description_other : String
  invoice_amount : Int
  onedrive_file_url : Option String
  file_type : String
  deriving DecidableEq

/-- `invoice.description_category === 'Other' ? invoice.description_other :
invoice.description_category` — the description column value. -/
def invoiceDescription (inv : Invoice) : String :=
  if inv.description_category = "Other" then inv.description_other
  else inv.description_category

/-- `customer_name.replace(/[^a-zA-Z0-9]/g, '')` — keep only ASCII letters and digits. -/
def sanitizeAlnum (s : String) : String :=
  String.mk (s.data.filter fun c => c.isAlpha || c.isDigit)

/-- `createDisplayFileName` (part_006, 1382-1389): sanitized customer name,
`-Receipt-`, the invoice date, and the extension from `file_type`. -/
def createDisplayFileName (inv : Invoice) : String :=
  sanitizeAlnum inv.customer_name ++ "-Receipt-" ++ inv.invoice_date ++ "." ++
    (if inv.file_type = "pdf" then "pdf" else "jpg")

/-- The row payload built by `syncToExcel` (part_006, 1331-1340):
`[sequence_id || 0, customer_name, invoice_date, description, invoice_amount,
'', displayFileName, onedrive_file_url || '']`.  On `Nat`, `sequence_id || 0`
is `sequence_id` itself. -/
def buildRowData (inv : Invoice) : Row :=
  [ Cell.num (inv.sequence_id : Int),
    Cell.str inv.customer_name,
    Cell.str inv.invoice_date,
    Cell.str (invoiceDescription inv),
    Cell.num inv.invoice_amount,
    Cell.str "",
    Cell.str (createDisplayFileName inv),
    Cell.str (inv.onedrive_file_url.getD "") ]

/-- `parseFloat(values[4])` as used by the detailed-match fallback.  The rows this
service writes always store the amount as a number (see `buildRowData`), which
`parseFloat` maps to itself; a non-numeric cell is abstracted to `none` (the `NaN`
case, which JS `===` makes compare false against every number). -/
def parseFloatCell : Cell → Option Int
  | Cell.num n => some n
  | Cell.str _ => none

/-- `invoiceData.sequence_id && values[0] === invoiceData.sequence_id`
(part_006, 1481): the sequence-id row match, guarded by truthiness of the id. -/
def sequenceIdMatch (inv : Invoice) (r : Row) : Bool :=
  (inv.sequence_id != 0) && (r.get? 0 == some (Cell.num (inv.sequence_id : Int)))

/-- `!invoiceData.sequence_id && values[1] === customer_name && values[2] ===
invoice_date && parseFloat(values[4]) === invoice_amount && values[3] ===
description` (part_006, 1482-1486): the detailed-match fallback used only when
the sequence id is falsy. -/
def detailedMatch (inv : Invoice) (r : Row) : Bool :=
  (inv.sequence_id == 0) &&
  (r.get? 1 == some (Cell.str inv.customer_name)) &&
  (r.get? 2 == some (Cell.str inv.invoice_date)) &&
  ((r.get? 4).bind parseFloatCell == some inv.invoice_amount) &&
  (r.get? 3 == some (Cell.str (invoiceDescription inv)))

/-- A row matches the invoice if `sequenceIdMatch || detailedMatch`
(part_006, 1488). -/
def rowMatches (inv : Invoice) (r : Row) : Bool :=
  sequenceIdMatch inv r || detailedMatch inv r

/-- `findExistingRow` (part_006, 1458-1500): fetch all `Table1` rows and scan
linearly for a matching one, reporting only whether a match exists. -/
def findExistingRow (table : List Row) (inv : Invoice) : Bool :=
  table.any (rowMatches inv)

/-- The linear scan with its explicit index counter (`for (let i = 0; ...)` with
`matchingRowIndex`), as used by `updateExistingRow` and `deleteExcelRow`:
index of the first matching row, or `none`. -/
def findRowIdxAux (inv : Invoice) : List Row → Nat → Option Nat
  | [], _ => none
  | r :: rest, i => if rowMatches inv r then some i else findRowIdxAux inv rest (i + 1)

def findRowIdx (table : List Row) (inv : Invoice) : Option Nat :=
  findRowIdxAux inv table 0

/-- `=HYPERLINK(H<row>,G<row>)` — the formula text written into column F. -/
def hyperlinkFormula (sheetRow : Nat) : String :=
  "=HYPERLINK(H" ++ toString sheetRow ++ ",G" ++ toString sheetRow ++ ")"

/-- `addHyperlinkFormula` (part_006, 1847-1886): after an append, fetch the table's
row count `n`, and PATCH sheet cell `F(n+1)`; since the header occupies sheet row 1,
sheet row `n+1` is the last table row, whose column-F cell (index 5) receives the
HYPERLINK formula.  On an empty table the PATCH targets the header row, leaving the
table rows unchanged. -/
def addHyperlinkFormula (table : List Row) : List Row :=
  match table.get? (table.length - 1) with
  | none => table
  | some r =>
      table.set (table.length - 1) (r.set 5 (Cell.str (hyperlinkFormula (table.length + 1))))

/-- The successful-remote run of `appendRowToExcel` (part_006, 1392-1455): POST the
row to `Table1` (appending it after the existing rows), then `addHyperlinkFormula`. -/
def appendRowIdeal (table : List Row) (inv : Invoice) : List Row :=
  addHyperlinkFormula (table ++ [buildRowData inv])

/-- `updateExistingRow` (part_006, 1503-1572) with the remote PATCH succeeding:
re-find the first matching row index and overwrite that row with the new payload;
`none` when no row matches (the source returns `false` and the caller reacts). -/
def updateExistingRow (table : List Row) (inv : Invoice) : Option (List Row) :=
  match findRowIdx table inv with
  | none => none
  | some i => some (table.set i (buildRowData inv))

/-- The two operations `syncToExcel` dispatches on. -/
inductive ExcelOp where
  | append
  | update
  deriving DecidableEq

/-- `syncToExcel` (part_006, 1309-1379) over an already-provisioned workbook
(`ensureExcelFileExists`/`ensureExcelTableExists` find the existing file and
`Table1` and mutate nothing), with the remaining remote calls succeeding.
Result: the error message thrown (or `none`), and the table rows afterwards.
For `update`: if a row matches, patch it in place (erroring if the patch reports
failure, which the ideal remote never does); if none matches, append instead.
For `append`: if a row matches, throw the duplicate error without appending;
otherwise append. -/
def syncToExcel (table : List Row) (inv : Invoice) (op : ExcelOp) :
    Option String × List Row :=
  match op with
  | ExcelOp.update =>
      if findExistingRow table inv then
        match updateExistingRow table inv with
        | some t => (none, t)
        | none => (some "Failed to update existing Excel row", table)
      else (none, appendRowIdeal table inv)
  | ExcelOp.append =>
      if findExistingRow table inv then
        (some "Invoice already exists in Excel", table)
      else (none, appendRowIdeal table inv)

/-- `deleteExcelRow` (part_006, 1987-2050): fetch the `Table1` rows, scan for the
first matching row; when none matches return `true` without issuing any request
("Consider it successful if row doesn't exist"); otherwise DELETE the row at that
index.  Result: reported success, the table afterwards, and the number of DELETE
requests issued. -/
def deleteExcelRow (table : List Row) (inv : Invoice) : Bool × List Row × Nat :=
  match findRowIdx table inv with
  | none => (true, table, 0)
  | some i => (true, table.eraseIdx i, 1)

/-- Number of remote rows whose column 0 carries the given sequence id. -/
def countSeqRows (table : List Row) (seq : Nat) : Nat :=
  table.countP (fun r => r.get? 0 == some (Cell.num (seq : Int)))

/-! ### Remote Filesystem Adapter: folder provisioning -/

/-- Whether the drive already holds an item at the given path (the GET probe of
`/me/drive/root:/{path}` answering anything but 404). -/
def driveHas (d : List String) (q : String) : Bool :=
  d.any (fun p => p == q)

/-- Building `currentPath` segment by segment: `currentPath ? currentPath + '/' +
part : part`. -/
def joinPath (cur p : String) : String :=
  if cur = "" then p else cur ++ "/" ++ p

/-- The loop body of `ensureDirectoryExists` (microsoftService.ts, 341-378): walk
the segments in order; for each prefix, probe it, and POST a folder-create into
its parent only when the probe 404s.  State: the drive's item paths and the number
of create requests issued so far. -/
def ensureDirGo : List String → String → List String → Nat → List String × Nat
  | [], _, d, c => (d, c)
  | p :: rest, cur, d, c =>
      let cur' := joinPath cur p
      if driveHas d cur' then ensureDirGo rest cur' d c
      else ensureDirGo rest cur' (d ++ [cur']) (c + 1)

/-- `ensureDirectoryExists(directoryPath)` with the path pre-split as in
`directoryPath.split('/').filter(part => part.length > 0)`: the segment list stands
for the slash-separated relative path.  Returns the drive afterwards and the number
of folder-create operations performed. -/
def ensureDirectoryExists (d : List String) (parts : List String) : List String × Nat :=
  ensureDirGo (parts.filter (fun p => p != "")) "" d 0

/-- The successive path prefixes probed by the loop (the values `currentPath`
takes). -/
def chainPaths : List String → String → List String
  | [], _ => []
  | p :: rest, cur =>
      let cur' := joinPath cur p
      cur' :: chainPaths rest cur'

/-! ### Token Manager -/

/-- The token payload persisted under `microsoft_token_data`
(microsoftService.ts, 14-21). -/
structure TokenData where
  access_token : String
  refresh_token : Option String
  expires_in : Nat
  expires_at : Option Nat
  deriving DecidableEq

/-- The durable client-side storage the token manager owns: the
`microsoft_code_verifier` key and the `microsoft_token_data` key. -/
structure MsStorage where
  codeVerifier : Option String
  tokenData : Option TokenData
  deriving DecidableEq

/-- `clearTokenData` (microsoftService.ts, 232-236): purge both keys. -/
def clearTokenData (_st : MsStorage) : MsStorage :=
  { codeVerifier := none, tokenData := none }

/-- `isAuthenticated` (microsoftService.ts, 46-62): false when no token data is
loaded; otherwise compare `Date.now()` against `expires_at || 0`, and on
`now >= expiresAt` clear the stored token data and answer false.  Returned as the
predicate value together with the storage afterwards. -/
def isAuthenticated (now : Nat) (st : MsStorage) : Bool × MsStorage :=
  match st.tokenData with
  | none => (false, st)
  | some td =>
      let expiresAt := td.expires_at.getD 0
      if expiresAt ≤ now then (false, clearTokenData st)
      else (true, st)

/-- `isAuthenticated` of the middle part_006 revision (part_006, 208-215): a pure
read of the in-memory token with a fixed 5-minute (300000 ms) buffer. -/
def isAuthenticatedBuffered (now : Nat) (accessToken : Option String)
    (tokenExpiry : Option Nat) : Bool :=
  match accessToken, tokenExpiry with
  | some _, some expiry => decide (now < expiry - 300000)
  | _, _ => false

/-- The successful body of the token-endpoint POST response. -/
structure TokenResponse where
  access_token : String
  refresh_token : Option String
  expires_in : Nat
  deriving DecidableEq

/-- The failures `handleAuthorizationCallback` can surface. -/
inductive AuthError where
  | notConfigured
  | missingVerifier
  | tokenExchangeFailed
  deriving DecidableEq

/-- Outcome of one callback-processing run: the error thrown (or `none` on
success), the storage afterwards, and how many token-exchange POSTs were sent. -/
structure CallbackRun where
  outcome : Option AuthError
  store : MsStorage
  exchangeCalls : Nat
  deriving DecidableEq

/-- `handleAuthorizationCallback(code)` (microsoftService.ts, 125-178).  Its only
parameter is the authorization code.  It throws when the service is unconfigured;
inside the `try` it reads the stored code verifier, throwing the missing-verifier
error when absent, then POSTs the code exchange (`exchange` is the endpoint's
response, `none` for a non-ok status).  On success it stores the token data with
`expires_at = now + expires_in * 1000` and removes the code verifier; the `catch`
also removes the code verifier before rethrowing. -/
def handleAuthorizationCallback (configured : Bool) (_code : String)
    (exchange : Option TokenResponse) (now : Nat) (st : MsStorage) : CallbackRun :=
  if !configured then ⟨some AuthError.notConfigured, st, 0⟩
  else
    match st.codeVerifier with
    | none => ⟨some AuthError.missingVerifier, { st with codeVerifier := none }, 0⟩
    | some _ =>
        match exchange with
        | none =>
            ⟨some AuthError.tokenExchangeFailed, { st with codeVerifier := none }, 1⟩
        | some tr =>
            ⟨none,
             { codeVerifier := none,
               tokenData := some ⟨tr.access_token, tr.refresh_token, tr.expires_in,
                 some (now + tr.expires_in * 1000)⟩ },
             1⟩

/-- The authorize-redirect parameters `initiateLogin` builds
(microsoftService.ts, 111-119). -/
structure AuthRequest where
  response_type : String
  state : String
  code_challenge : String
  deriving DecidableEq

/-- `initiateLogin` (microsoftService.ts, 99-123) with its randomly generated
verifier and state passed in: it persists only the code verifier
(`localStorage.setItem(CODE_VERIFIER_KEY, codeVerifier)`) and places the state
solely into the authorize URL's query parameters — the state is not stored
anywhere client-side. -/
def initiateLogin (verifier challenge state : String) (st : MsStorage) :
    MsStorage × AuthRequest :=
  ({ st with codeVerifier := some verifier }, ⟨"code", state, challenge⟩)

/-- The authorization-code branch of the `AuthCallback` component
(AuthCallback.tsx, 19-70): of the callback URL's query parameters it extracts
only `code` (and the error fields); the `state` parameter returned by the
identity provider is never read, and `handleAuthorizationCallback` receives the
code alone.  With no code present nothing is done. -/
def authCallbackProcess (code : Option String) (_returnedState : String)
    (configured : Bool) (exchange : Option TokenResponse) (now : Nat)
    (st : MsStorage) : CallbackRun :=
  match code with
  | some c => handleAuthorizationCallback configured c exchange now st
  | none => ⟨none, st, 0⟩

/-! ### Workbook Table Manager: retry loops -/

/-- Trace of one bounded retry loop: whether it surfaced success, the number of
attempts performed, and the delays (in ms) slept between attempts. -/
structure RetryTrace where
  ok : Bool
  attemptsMade : Nat
  delays : List Nat
  deriving DecidableEq

/-- The retry loop of `ensureExcelTableExists` (part_006, 1654-1762):
`while (attempt < 3)`, one attempt being the tables listing plus — when `Table1`
is absent — table creation and the header PATCH; every thrown error (of any kind)
increments `attempt`, rethrows when `attempt >= 3`, and otherwise sleeps
`2^attempt * 1000` ms (2 s, then 4 s) before the next attempt.  `attemptOk i`
is whether attempt `i` runs to completion. -/
def ensureTableGo (attemptOk : Nat → Bool) : Nat → Nat → List Nat → RetryTrace
  | attempt, 0, ds => ⟨false, attempt, ds⟩
  | attempt, fuel + 1, ds =>
      if attemptOk attempt then ⟨true, attempt + 1, ds⟩
      else
        let a := attempt + 1
        if 3 ≤ a then ⟨false, a, ds⟩
        else ensureTableGo attemptOk a fuel (ds ++ [2 ^ a * 1000])

def ensureExcelTableExistsRetry (attemptOk : Nat → Bool) : RetryTrace :=
  ensureTableGo attemptOk 0 3 []

/-- The retry loop of `appendToWorksheetDirectly` (part_006, 1766-1788): up to 3
attempts at `attemptWorksheetAppend`, every error retried, the delay before the
next attempt being `2^(attempt-1) * 1000` ms (1 s, then 2 s), the last error
rethrown after exhaustion. -/
def worksheetAppendGo (attemptOk : Nat → Bool) : Nat → Nat → List Nat → RetryTrace
  | attempt, 0, ds => ⟨false, attempt, ds⟩
  | attempt, fuel + 1, ds =>
      if attemptOk attempt then ⟨true, attempt + 1, ds⟩
      else
        let a := attempt + 1
        if 3 ≤ a then ⟨false, a, ds⟩
        else worksheetAppendGo attemptOk a fuel (ds ++ [2 ^ (a - 1) * 1000])

def appendToWorksheetDirectlyRetry (attemptOk : Nat → Bool) : RetryTrace :=
  worksheetAppendGo attemptOk 0 3 []

/-- What one POST to `Table1/rows` comes back with, as the loop of
`appendRowToExcel` distinguishes it: ok, the `ItemNotFound` error code, or any
other error. -/
inductive TableAddOutcome where
  | ok
  | itemNotFound
  | otherError
  deriving DecidableEq

/-- Trace of `appendRowToExcel`: surfaced success, number of table POSTs made,
delays slept in the outer loop, and how many times the worksheet fallback ran. -/
structure AppendTrace where
  ok : Bool
  tableAttempts : Nat
  delays : List Nat
  fallbackCalls : Nat
  deriving DecidableEq

/-- The loop of `appendRowToExcel` (part_006, 1392-1455): POST the row to
`Table1`.  On ok, done.  On `ItemNotFound` the attempt throws: the catch
increments `attempt`, runs the worksheet fallback as the final resort when
`attempt >= 3`, and otherwise sleeps `2^(attempt-1) * 1000` ms and retries.  On
any other error the loop switches to the worksheet fallback within the same
attempt: if the fallback succeeds the append is done; if the fallback throws the
catch proceeds as above.  `fallbackOk j` is whether the `j`-th fallback
invocation (itself `appendToWorksheetDirectly`, retried internally) succeeds. -/
def appendRowGo (tableOutcome : Nat → TableAddOutcome) (fallbackOk : Nat → Bool) :
    Nat → Nat → Nat → List Nat → AppendTrace
  | attempt, fbIdx, 0, ds => ⟨false, attempt, ds, fbIdx⟩
  | attempt, fbIdx, fuel + 1, ds =>
      match tableOutcome attempt with
      | TableAddOutcome.ok => ⟨true, attempt + 1, ds, fbIdx⟩
      | TableAddOutcome.itemNotFound =>
          let a := attempt + 1
          if 3 ≤ a then ⟨fallbackOk fbIdx, a, ds, fbIdx + 1⟩
          else appendRowGo tableOutcome fallbackOk a fbIdx fuel (ds ++ [2 ^ (a - 1) * 1000])
      | TableAddOutcome.otherError =>
          if fallbackOk fbIdx then ⟨true, attempt + 1, ds, fbIdx + 1⟩
          else
            let a := attempt + 1
            if 3 ≤ a then ⟨fallbackOk (fbIdx + 1), a, ds, fbIdx + 2⟩
            else appendRowGo tableOutcome fallbackOk a (fbIdx + 1) fuel
              (ds ++ [2 ^ (a - 1) * 1000])

def appendRowToExcelRetry (tableOutcome : Nat → TableAddOutcome)
    (fallbackOk : Nat → Bool) : AppendTrace :=
  appendRowGo tableOutcome fallbackOk 0 0 3 []

/-! ### Sync Orchestrator -/

/-- The `OneDriveUploadResult` shape `{success, fileUrl?, error?}`. -/
structure UploadOutcome where
  success : Bool
  fileUrl : Option String
  error : Option String
  deriving DecidableEq

/-- The invoice record's persisted sync-status flags
(`onedrive_uploaded`, `onedrive_file_url`, `excel_synced`). -/
structure SyncStatusFlags where
  onedrive_uploaded : Bool
  onedrive_file_url : Option String
  excel_synced : Bool
  deriving DecidableEq

/-- `uploadInvoiceToOneDrive` (microsoftService.ts, 289-339) with the remote call
results as oracles: `dirOk` for `ensureDirectoryExists`, `uploadOk`/`webUrl` for
the file PUT, `excelOk` for `appendToExcel`.  The Excel step is wrapped in its own
`try`: its failure is logged and swallowed ("Don't fail the entire operation if
Excel update fails"), and the function still returns `{success: true, fileUrl}`.
Second component: whether an Excel row was actually appended. -/
def uploadInvoiceToOneDrive (dirOk uploadOk : Bool) (webUrl : String)
    (excelOk : Bool) : UploadOutcome × Bool :=
  if !dirOk then (⟨false, none, some "Failed to create directory"⟩, false)
  else if !uploadOk then (⟨false, none, some "File upload failed"⟩, false)
  else (⟨true, some webUrl, none⟩, excelOk)

/-- `InvoiceService.uploadToOneDrive` (invoiceService.ts, 68-99): fetch the file
blob (`blobFound`), call `uploadInvoiceToOneDrive`, and when its result reports
success persist `{onedrive_uploaded: true, onedrive_file_url: result.fileUrl,
excel_synced: true}` to the record store.  Returns the result, the persisted
flags, and whether an Excel row was actually appended. -/
def uploadToOneDrive (blobFound dirOk uploadOk : Bool) (webUrl : String)
    (excelOk : Bool) (status : SyncStatusFlags) :
    UploadOutcome × SyncStatusFlags × Bool :=
  if !blobFound then (⟨false, none, some "Invoice file not found"⟩, status, false)
  else
    let r := uploadInvoiceToOneDrive dirOk uploadOk webUrl excelOk
    if r.1.success then (r.1, ⟨true, r.1.fileUrl, true⟩, r.2)
    else (r.1, status, r.2)

/-- The sharing-URL revision of `deleteFileFromOneDrive` (part_006, 1889-1922):
after `ensureValidToken`, it only logs that deletion of sharing URLs is not
implemented and returns `{success: true}` — no DELETE request is built or sent
("Return success to avoid blocking deletion").  State: the drive's file items,
returned untouched, plus the count of DELETE requests issued. -/
def deleteFileFromOneDrive (hasValidToken : Bool) (_fileUrl : String)
    (drive : List String) : UploadOutcome × List String × Nat :=
  if !hasValidToken then
    (⟨false, none,
      some "Authentication required. Please connect to Microsoft OneDrive first."⟩,
     drive, 0)
  else (⟨true, none, none⟩, drive, 0)

/-- A concrete invoice used by the evaluation theorems. -/
def sampleInvoice : Invoice where
  sequence_id := 1
  customer_name := "Jane Doe"
  invoice_date := "2024-03-01"
  description_category := "Dental"
  description_other := ""
  invoice_amount := 120
  onedrive_file_url := some "https://1drv.example/a"
  file_type := "pdf"

/-- A stored credential expiring at epoch-ms 400000. -/
def storeExp400 : MsStorage where
  codeVerifier := none
  tokenData := some ⟨"tok", none, 3600, some 400000⟩

/-! ## Supporting lemmas -/

theorem rowMatches_of_seq_ne_zero (inv : Invoice) (hseq : inv.sequence_id ≠ 0)
    (r : Row) :
    rowMatches inv r = (r.get? 0 == some (Cell.num (inv.sequence_id : Int))) := by
  have h1 : (inv.sequence_id != 0) = true := by simpa using hseq
  have h2 : (inv.sequence_id == 0) = false := by simpa using hseq
  simp [rowMatches, sequenceIdMatch, detailedMatch, h1, h2]

theorem findExistingRow_eq_false_of_count_zero (t : List Row) (inv : Invoice)
    (hseq : inv.sequence_id ≠ 0) (h0 : countSeqRows t inv.sequence_id = 0) :
    findExistingRow t inv = false := by
  unfold countSeqRows at h0
  unfold findExistingRow
  rw [List.any_eq_false]
  intro r hr
  rw [rowMatches_of_seq_ne_zero inv hseq r]
  exact List.countP_eq_zero.mp h0 r hr

theorem findExistingRow_eq_true_of_count_pos (t : List Row) (inv : Invoice)
    (hseq : inv.sequence_id ≠ 0) (h : 0 < countSeqRows t inv.sequence_id) :
    findExistingRow t inv = true := by
  unfold countSeqRows at h
  obtain ⟨r, hr, hp⟩ := List.countP_pos_iff.mp h
  unfold findExistingRow
  rw [List.any_eq_true]
  exact ⟨r, hr, by rw [rowMatches_of_seq_ne_zero inv hseq r]; exact hp⟩

theorem get?_zero_set_five (r : Row) (c : Cell) : (r.set 5 c).get? 0 = r.get? 0 := by
  cases r <;> rfl

theorem countP_set_congr {α : Type _} (p : α → Bool) (l : List α) :
    ∀ (i : Nat) (a b : α), l.get? i = some b → p a = p b →
      (l.set i a).countP p = l.countP p := by
  induction l with
  | nil => intro i a b hb _; simp at hb
  | cons x xs ih =>
      intro i a b hb hp
      cases i with
      | zero =>
          simp only [List.get?] at hb
          injection hb with hb
          subst hb
          simp [List.set, List.countP_cons, hp]
      | succ n =>
          simp only [List.get?] at hb
          simp [List.set, List.countP_cons, ih n a b hb hp]

theorem countSeqRows_addHyperlinkFormula (t : List Row) (seq : Nat) :
    countSeqRows (addHyperlinkFormula t) seq = countSeqRows t seq := by
  unfold addHyperlinkFormula countSeqRows
  cases h : t.get? (t.length - 1) with
  | none => rfl
  | some r =>
      exact countP_set_congr _ t (t.length - 1) _ r h
        (by simp only [get?_zero_set_five])

theorem length_addHyperlinkFormula (t : List Row) :
    (addHyperlinkFormula t).length = t.length := by
  unfold addHyperlinkFormula
  cases h : t.get? (t.length - 1) with
  | none => rfl
  | some r => simp [List.length_set]

theorem countSeqRows_append_row (t : List Row) (inv : Invoice) :
    countSeqRows (t ++ [buildRowData inv]) inv.sequence_id =
      countSeqRows t inv.sequence_id + 1 := by
  unfold countSeqRows
  rw [List.countP_append]
  simp [buildRowData, List.countP_cons]

theorem findRowIdxAux_eq_none (inv : Invoice) :
    ∀ (l : List Row) (i : Nat), (∀ r ∈ l, rowMatches inv r = false) →
      findRowIdxAux inv l i = none := by
  intro l
  induction l with
  | nil => intro i _; rfl
  | cons r rest ih =>
      intro i h
      have hr : rowMatches inv r = false := h r (by simp)
      simp only [findRowIdxAux, hr, Bool.false_eq_true, if_false]
      exact ih (i + 1) (fun s hs => h s (by simp [hs]))

theorem findRowIdx_eq_none_of_count_zero (t : List Row) (inv : Invoice)
    (hseq : inv.sequence_id ≠ 0) (h0 : countSeqRows t inv.sequence_id = 0) :
    findRowIdx t inv = none := by
  unfold countSeqRows at h0
  refine findRowIdxAux_eq_none inv t 0 (fun r hr => ?_)
  rw [rowMatches_of_seq_ne_zero inv hseq r]
  have := List.countP_eq_zero.mp h0 r hr
  simpa using this

theorem driveHas_append (d e : List String) (q : String) :
    driveHas (d ++ e) q = (driveHas d q || driveHas e q) :=
  List.any_append

theorem driveHas_singleton_self (q : String) : driveHas [q] q = true := by
  simp [driveHas]

theorem ensureDirGo_drive_extends (parts : List String) :
    ∀ (cur : String) (d : List String) (c : Nat),
      ∃ e, (ensureDirGo parts cur d c).1 = d ++ e := by
  induction parts with
  | nil => intro cur d c; exact ⟨[], by simp [ensureDirGo]⟩
  | cons p rest ih =>
      intro cur d c
      unfold ensureDirGo
      by_cases h : driveHas d (joinPath cur p)
      · simpa [h] using ih (joinPath cur p) d c
      · obtain ⟨e, he⟩ := ih (joinPath cur p) (d ++ [joinPath cur p]) (c + 1)
        refine ⟨joinPath cur p :: e, ?_⟩
        simp [h, he]

theorem driveHas_ensureDirGo_of_has (parts : List String) (cur : String)
    (d : List String) (c : Nat) (q : String) (h : driveHas d q = true) :
    driveHas (ensureDirGo parts cur d c).1 q = true := by
  obtain ⟨e, he⟩ := ensureDirGo_drive_extends parts cur d c
  rw [he, driveHas_append, h, Bool.true_or]

theorem chain_mem_ensureDirGo (parts : List String) :
    ∀ (cur : String) (d : List String) (c : Nat) (q : String),
      q ∈ chainPaths parts cur → driveHas (ensureDirGo parts cur d c).1 q = true := by
  induction parts with
  | nil => intro cur d c q hq; simp [chainPaths] at hq
  | cons p rest ih =>
      intro cur d c q hq
      simp only [chainPaths, List.mem_cons] at hq
      unfold ensureDirGo
      by_cases h : driveHas d (joinPath cur p)
      · rw [if_pos h]
        rcases hq with rfl | hq
        · exact driveHas_ensureDirGo_of_has rest _ _ _ _ h
        · exact ih _ _ _ _ hq
      · rw [if_neg h]
        rcases hq with rfl | hq
        · refine driveHas_ensureDirGo_of_has rest _ _ _ _ ?_
          rw [driveHas_append, driveHas_singleton_self, Bool.or_true]
        · exact ih _ _ _ _ hq

theorem ensureDirGo_noop (parts : List String) :
    ∀ (cur : String) (d : List String) (c : Nat),
      (∀ q ∈ chainPaths parts cur, driveHas d q = true) →
      ensureDirGo parts cur d c = (d, c) := by
  induction parts with
  | nil => intro cur d c _; rfl
  | cons p rest ih =>
      intro cur d c h
      have hp : driveHas d (joinPath cur p) = true := h _ (by simp [chainPaths])
      unfold ensureDirGo
      rw [if_pos hp]
      exact ih _ d c (fun q hq => h q (by simp [chainPaths, hq]))

theorem ensureTableGo_eq3 (f : Nat → Bool) (att : Nat) (ds : List Nat) :
    ensureTableGo f att 3 ds =
      if f att then ⟨true, att + 1, ds⟩
      else if 3 ≤ att + 1 then ⟨false, att + 1, ds⟩
      else ensureTableGo f (att + 1) 2 (ds ++ [2 ^ (att + 1) * 1000]) := rfl

theorem ensureTableGo_eq2 (f : Nat → Bool) (att : Nat) (ds : List Nat) :
    ensureTableGo f att 2 ds =
      if f att then ⟨true, att + 1, ds⟩
      else if 3 ≤ att + 1 then ⟨false, att + 1, ds⟩
      else ensureTableGo f (att + 1) 1 (ds ++ [2 ^ (att + 1) * 1000]) := rfl

theorem ensureTableGo_eq1 (f : Nat → Bool) (att : Nat) (ds : List Nat) :
    ensureTableGo f att 1 ds =
      if f att then ⟨true, att + 1, ds⟩
      else if 3 ≤ att + 1 then ⟨false, att + 1, ds⟩
      else ensureTableGo f (att + 1) 0 (ds ++ [2 ^ (att + 1) * 1000]) := rfl

theorem ensureTable_retry_policy (f : Nat → Bool) :
    (ensureExcelTableExistsRetry f).attemptsMade ≤ 3 ∧
    ((ensureExcelTableExistsRetry f).delays = [] ∨
     (ensureExcelTableExistsRetry f).delays = [2000] ∨
     (ensureExcelTableExistsRetry f).delays = [2000, 4000]) ∧
    ((ensureExcelTableExistsRetry f).ok = false →
      f 0 = false ∧ f 1 = false ∧ f 2 = false) := by
  have e : ensureExcelTableExistsRetry f =
      if f 0 then ⟨true, 1, []⟩
      else if f 1 then ⟨true, 2, [2000]⟩
      else if f 2 then ⟨true, 3, [2000, 4000]⟩
      else ⟨false, 3, [2000, 4000]⟩ := by
    show ensureTableGo f 0 3 [] = _
    rw [ensureTableGo_eq3, ensureTableGo_eq2, ensureTableGo_eq1]
    norm_num
  rw [e]
  by_cases h0 : f 0 <;> by_cases h1 : f 1 <;> by_cases h2 : f 2 <;>
    simp [h0, h1, h2]

theorem worksheetGo_eq3 (g : Nat → Bool) (att : Nat) (ds : List Nat) :
    worksheetAppendGo g att 3 ds =
      if g att then ⟨true, att + 1, ds⟩
      else if 3 ≤ att + 1 then ⟨false, att + 1, ds⟩
      else worksheetAppendGo g (att + 1) 2 (ds ++ [2 ^ (att + 1 - 1) * 1000]) := rfl

theorem worksheetGo_eq2 (g : Nat → Bool) (att : Nat) (ds : List Nat) :
    worksheetAppendGo g att 2 ds =
      if g att then ⟨true, att + 1, ds⟩
      else if 3 ≤ att + 1 then ⟨false, att + 1, ds⟩
      else worksheetAppendGo g (att + 1) 1 (ds ++ [2 ^ (att + 1 - 1) * 1000]) := rfl

theorem worksheetGo_eq1 (g : Nat → Bool) (att : Nat) (ds : List Nat) :
    worksheetAppendGo g att 1 ds =
      if g att then ⟨true, att + 1, ds⟩
      else if 3 ≤ att + 1 then ⟨false, att + 1, ds⟩
      else worksheetAppendGo g (att + 1) 0 (ds ++ [2 ^ (att + 1 - 1) * 1000]) := rfl

theorem worksheet_retry_policy (g : Nat → Bool) :
    (appendToWorksheetDirectlyRetry g).attemptsMade ≤ 3 ∧
    ((appendToWorksheetDirectlyRetry g).delays = [] ∨
     (appendToWorksheetDirectlyRetry g).delays = [1000] ∨
     (appendToWorksheetDirectlyRetry g).delays = [1000, 2000]) ∧
    ((appendToWorksheetDirectlyRetry g).ok = false →
      g 0 = false ∧ g 1 = false ∧ g 2 = false) := by
  have e : appendToWorksheetDirectlyRetry g =
      if g 0 then ⟨true, 1, []⟩
      else if g 1 then ⟨true, 2, [1000]⟩
      else if g 2 then ⟨true, 3, [1000, 2000]⟩
      else ⟨false, 3, [1000, 2000]⟩ := by
    show worksheetAppendGo g 0 3 [] = _
    rw [worksheetGo_eq3, worksheetGo_eq2, worksheetGo_eq1]
    norm_num
  rw [e]
  by_cases h0 : g 0 <;> by_cases h1 : g 1 <;> by_cases h2 : g 2 <;>
    simp [h0, h1, h2]

theorem appendRowGo_eq3 (tout : Nat → TableAddOutcome) (fb : Nat → Bool)
    (att fbIdx : Nat) (ds : List Nat) :
    appendRowGo tout fb att fbIdx 3 ds =
      match tout att with
      | TableAddOutcome.ok => ⟨true, att + 1, ds, fbIdx⟩
      | TableAddOutcome.itemNotFound =>
          if 3 ≤ att + 1 then ⟨fb fbIdx, att + 1, ds, fbIdx + 1⟩
          else appendRowGo tout fb (att + 1) fbIdx 2 (ds ++ [2 ^ (att + 1 - 1) * 1000])
      | TableAddOutcome.otherError =>
          if fb fbIdx then ⟨true, att + 1, ds, fbIdx + 1⟩
          else if 3 ≤ att + 1 then ⟨fb (fbIdx + 1), att + 1, ds, fbIdx + 2⟩
          else appendRowGo tout fb (att + 1) (fbIdx + 1) 2
            (ds ++ [2 ^ (att + 1 - 1) * 1000]) := rfl

theorem appendRowGo_eq2 (tout : Nat → TableAddOutcome) (fb : Nat → Bool)
    (att fbIdx : Nat) (ds : List Nat) :
    appendRowGo tout fb att fbIdx 2 ds =
      match tout att with
      | TableAddOutcome.ok => ⟨true, att + 1, ds, fbIdx⟩
      | TableAddOutcome.itemNotFound =>
          if 3 ≤ att + 1 then ⟨fb fbIdx, att + 1, ds, fbIdx + 1⟩
          else appendRowGo tout fb (att + 1) fbIdx 1 (ds ++ [2 ^ (att + 1 - 1) * 1000])
      | TableAddOutcome.otherError =>
          if fb fbIdx then ⟨true, att + 1, ds, fbIdx + 1⟩
          else if 3 ≤ att + 1 then ⟨fb (fbIdx + 1), att + 1, ds, fbIdx + 2⟩
          else appendRowGo tout fb (att + 1) (fbIdx + 1) 1
            (ds ++ [2 ^ (att + 1 - 1) * 1000]) := rfl

theorem appendRowGo_eq1 (tout : Nat → TableAddOutcome) (fb : Nat → Bool)
    (att fbIdx : Nat) (ds : List Nat) :
    appendRowGo tout fb att fbIdx 1 ds =
      match tout att with
      | TableAddOutcome.ok => ⟨true, att + 1, ds, fbIdx⟩
      | TableAddOutcome.itemNotFound =>
          if 3 ≤ att + 1 then ⟨fb fbIdx, att + 1, ds, fbIdx + 1⟩
          else appendRowGo tout fb (att + 1) fbIdx 0 (ds ++ [2 ^ (att + 1 - 1) * 1000])
      | TableAddOutcome.otherError =>
          if fb fbIdx then ⟨true, att + 1, ds, fbIdx + 1⟩
          else if 3 ≤ att + 1 then ⟨fb (fbIdx + 1), att + 1, ds, fbIdx + 2⟩
          else appendRowGo tout fb (att + 1) (fbIdx + 1) 0
            (ds ++ [2 ^ (att + 1 - 1) * 1000]) := rfl

theorem appendRow_retry_policy (tout : Nat → TableAddOutcome) (fb : Nat → Bool) :
    (appendRowToExcelRetry tout fb).tableAttempts ≤ 3 ∧
    ((appendRowToExcelRetry tout fb).delays = [] ∨
     (appendRowToExcelRetry tout fb).delays = [1000] ∨
     (appendRowToExcelRetry tout fb).delays = [1000, 2000]) ∧
    ((appendRowToExcelRetry tout fb).ok = false →
      tout 0 ≠ TableAddOutcome.ok ∧ tout 1 ≠ TableAddOutcome.ok ∧
        tout 2 ≠ TableAddOutcome.ok) ∧
    (tout 0 = TableAddOutcome.otherError → fb 0 = true →
      appendRowToExcelRetry tout fb = ⟨true, 1, [], 1⟩) := by
  rcases h0 : tout 0 with _ | _ | _ <;>
    rcases h1 : tout 1 with _ | _ | _ <;>
      rcases h2 : tout 2 with _ | _ | _ <;>
        cases hf0 : fb 0 <;> cases hf1 : fb 1 <;> cases hf2 : fb 2 <;>
          simp [appendRowToExcelRetry, appendRowGo_eq3, appendRowGo_eq2,
            appendRowGo_eq1, h0, h1, h2, hf0, hf1, hf2]

/-! ## Claims -/

/-- C1 (code bug, evaluated at the failing input): when the file blob is found,
the folder and the file upload succeed, but the Excel append fails, the
orchestrator still gets `success: true` back from `uploadInvoiceToOneDrive`
(which swallows the Excel error) and therefore persists
`excel_synced: true` to the record store — even though no Excel row was actually
appended (third component `false`).  The claim requires `excelSynced: true` to be
persisted only when the append actually succeeded. -/
theorem uploadToOneDrive_collapses_partial_success :
    (uploadToOneDrive true true true "https://1drv.example/f" false
        ⟨false, none, false⟩).1.success = true ∧
    (uploadToOneDrive true true true "https://1drv.example/f" false
        ⟨false, none, false⟩).2.1.excel_synced = true ∧
    (uploadToOneDrive true true true "https://1drv.example/f" false
        ⟨false, none, false⟩).2.2 = false := by
  decide

/-- C2 counterexample: after a login initiated with state `"state0"`, a callback
carrying a different returned state `"state1"` does not fail with any
state-mismatch error — the token exchange is performed (one exchange call) and
succeeds, because neither the callback component nor
`handleAuthorizationCallback` ever reads or compares the `state` parameter. -/
theorem authCallback_state_mismatch_counterexample :
    ("state1" ≠ "state0") ∧
    (initiateLogin "ver" "chal" "state0" ⟨none, none⟩).2.state = "state0" ∧
    (authCallbackProcess (some "authcode") "state1" true (some ⟨"tok", none, 3600⟩) 0
        (initiateLogin "ver" "chal" "state0" ⟨none, none⟩).1).exchangeCalls = 1 ∧
    (authCallbackProcess (some "authcode") "state1" true (some ⟨"tok", none, 3600⟩) 0
        (initiateLogin "ver" "chal" "state0" ⟨none, none⟩).1).outcome = none := by
  decide

/-- C2 (amended): `completeLogin` receives only the authorization code; the state
returned by the identity provider is never read (the callback processing is one
and the same function whatever the returned state), `initiateLogin` does not
persist the state it generates, and no `StateMismatch` failure exists.  The only
precondition check is the stored PKCE verifier: when it is absent the run fails
with `missingVerifier` and performs no token exchange; when it is present the
token exchange is performed regardless of the returned state. -/
theorem authCallback_state_never_checked (code s1 s2 : String) (configured : Bool)
    (ex : Option TokenResponse) (now : Nat) (st : MsStorage) :
    authCallbackProcess (some code) s1 configured ex now st =
      authCallbackProcess (some code) s2 configured ex now st ∧
    (st.codeVerifier = none → configured = true →
      (authCallbackProcess (some code) s1 configured ex now st).outcome =
        some AuthError.missingVerifier ∧
      (authCallbackProcess (some code) s1 configured ex now st).exchangeCalls = 0) ∧
    (∀ v, st.codeVerifier = some v → configured = true →
      (authCallbackProcess (some code) s1 configured ex now st).exchangeCalls = 1) := by
  refine ⟨rfl, ?_, ?_⟩
  · intro h hc
    subst hc
    exact ⟨by simp [authCallbackProcess, handleAuthorizationCallback, h],
           by simp [authCallbackProcess, handleAuthorizationCallback, h]⟩
  · intro v hv hc
    subst hc
    cases ex <;> simp [authCallbackProcess, handleAuthorizationCallback, hv]

/-- Witness for C2's amended theorem at concrete inputs. -/
theorem authCallback_state_never_checked_witness :
    (authCallbackProcess (some "c") "sA" true (some ⟨"tok", none, 3600⟩) 0
        ⟨none, none⟩).outcome = some AuthError.missingVerifier ∧
    (authCallbackProcess (some "c") "sA" true none 0
        ⟨some "ver", none⟩).exchangeCalls = 1 :=
  ⟨((authCallback_state_never_checked "c" "sA" "sB" true (some ⟨"tok", none, 3600⟩) 0
      ⟨none, none⟩).2.1 rfl rfl).1,
   (authCallback_state_never_checked "c" "sA" "sB" true none 0
      ⟨some "ver", none⟩).2.2 "ver" rfl rfl⟩

/-- C3: for a nonzero sequence id, appending a row into a table holding no row
with that id succeeds (no error, row count for the id becomes 1), and a second
append for the same invoice fails with the duplicate error
`"Invoice already exists in Excel"` while leaving the table — and hence the row
count for that id — unchanged at exactly 1. -/
theorem syncToExcel_append_rejects_duplicate (t : List Row) (inv : Invoice)
    (hseq : inv.sequence_id ≠ 0) (h0 : countSeqRows t inv.sequence_id = 0) :
    (syncToExcel t inv ExcelOp.append).1 = none ∧
    countSeqRows (syncToExcel t inv ExcelOp.append).2 inv.sequence_id = 1 ∧
    syncToExcel (syncToExcel t inv ExcelOp.append).2 inv ExcelOp.append =
      (some "Invoice already exists in Excel",
        (syncToExcel t inv ExcelOp.append).2) := by
  have hfind := findExistingRow_eq_false_of_count_zero t inv hseq h0
  have h1 : syncToExcel t inv ExcelOp.append = (none, appendRowIdeal t inv) := by
    simp [syncToExcel, hfind]
  have hc1 : countSeqRows (appendRowIdeal t inv) inv.sequence_id = 1 := by
    unfold appendRowIdeal
    rw [countSeqRows_addHyperlinkFormula, countSeqRows_append_row, h0]
  have hfind2 : findExistingRow (appendRowIdeal t inv) inv = true :=
    findExistingRow_eq_true_of_count_pos _ inv hseq (by rw [hc1]; norm_num)
  refine ⟨by rw [h1], by rw [h1]; exact hc1, ?_⟩
  rw [h1]
  simp [syncToExcel, hfind2]

/-- Witness for C3 at a concrete invoice and the empty table. -/
theorem syncToExcel_append_rejects_duplicate_witness :
    sampleInvoice.sequence_id ≠ 0 ∧
    countSeqRows [] sampleInvoice.sequence_id = 0 ∧
    (syncToExcel [] sampleInvoice ExcelOp.append).1 = none ∧
    countSeqRows (syncToExcel [] sampleInvoice ExcelOp.append).2
      sampleInvoice.sequence_id = 1 ∧
    syncToExcel (syncToExcel [] sampleInvoice ExcelOp.append).2 sampleInvoice
        ExcelOp.append =
      (some "Invoice already exists in Excel",
        (syncToExcel [] sampleInvoice ExcelOp.append).2) := by
  have h := syncToExcel_append_rejects_duplicate [] sampleInvoice (by decide) (by decide)
  exact ⟨by decide, by decide, h.1, h.2.1, h.2.2⟩

/-- C4: for a nonzero sequence id with no row carrying it, the `update`
operation does not error — it falls back to appending, creating exactly one new
row with that sequence id (row count for the id goes from 0 to 1, total length
grows by exactly one). -/
theorem syncToExcel_update_miss_appends (t : List Row) (inv : Invoice)
    (hseq : inv.sequence_id ≠ 0) (h0 : countSeqRows t inv.sequence_id = 0) :
    (syncToExcel t inv ExcelOp.update).1 = none ∧
    countSeqRows (syncToExcel t inv ExcelOp.update).2 inv.sequence_id = 1 ∧
    (syncToExcel t inv ExcelOp.update).2.length = t.length + 1 := by
  have hfind := findExistingRow_eq_false_of_count_zero t inv hseq h0
  have h1 : syncToExcel t inv ExcelOp.update = (none, appendRowIdeal t inv) := by
    simp [syncToExcel, hfind]
  rw [h1]
  refine ⟨rfl, ?_, ?_⟩
  · unfold appendRowIdeal
    rw [countSeqRows_addHyperlinkFormula, countSeqRows_append_row, h0]
  · unfold appendRowIdeal
    rw [length_addHyperlinkFormula]
    simp

/-- Witness for C4 at a concrete invoice and a table holding one other row. -/
theorem syncToExcel_update_miss_appends_witness :
    sampleInvoice.sequence_id ≠ 0 ∧
    countSeqRows [[Cell.num 7, Cell.str "Bob"]] sampleInvoice.sequence_id = 0 ∧
    (syncToExcel [[Cell.num 7, Cell.str "Bob"]] sampleInvoice ExcelOp.update).1 = none ∧
    countSeqRows
      (syncToExcel [[Cell.num 7, Cell.str "Bob"]] sampleInvoice ExcelOp.update).2
      sampleInvoice.sequence_id = 1 ∧
    (syncToExcel [[Cell.num 7, Cell.str "Bob"]] sampleInvoice ExcelOp.update).2.length =
      2 := by
  have h := syncToExcel_update_miss_appends [[Cell.num 7, Cell.str "Bob"]]
    sampleInvoice (by decide) (by decide)
  exact ⟨by decide, by decide, h.1, h.2.1, h.2.2⟩

/-- C5: `ensureDirectoryExists` is idempotent.  First conjunct: for every drive
state and every path, running it a second time changes nothing and performs zero
folder-create operations.  Remaining conjuncts: from an empty drive, provisioning
`A/B/C` creates exactly one folder at each of the prefixes `A`, `A/B`, `A/B/C`
(three creates), and the repeated call is a no-op with zero creates. -/
theorem ensureDirectoryExists_idempotent :
    (∀ (d parts : List String),
      ensureDirectoryExists (ensureDirectoryExists d parts).1 parts =
        ((ensureDirectoryExists d parts).1, 0)) ∧
    ensureDirectoryExists [] ["A", "B", "C"] = (["A", "A/B", "A/B/C"], 3) ∧
    ensureDirectoryExists ["A", "A/B", "A/B/C"] ["A", "B", "C"] =
      (["A", "A/B", "A/B/C"], 0) := by
  refine ⟨?_, by decide, by decide⟩
  intro d parts
  unfold ensureDirectoryExists
  exact ensureDirGo_noop _ "" _ 0
    (fun q hq => chain_mem_ensureDirGo _ "" d 0 q hq)

/-- C6: for a nonzero sequence id with no matching remote row, `deleteExcelRow`
reports success, leaves the table unchanged, and issues zero DELETE requests. -/
theorem deleteExcelRow_miss_is_success (t : List Row) (inv : Invoice)
    (hseq : inv.sequence_id ≠ 0) (h0 : countSeqRows t inv.sequence_id = 0) :
    deleteExcelRow t inv = (true, t, 0) := by
  have h := findRowIdx_eq_none_of_count_zero t inv hseq h0
  simp [deleteExcelRow, h]

/-- Witness for C6 at a concrete invoice and a table holding one other row. -/
theorem deleteExcelRow_miss_is_success_witness :
    sampleInvoice.sequence_id ≠ 0 ∧
    countSeqRows [[Cell.num 99, Cell.str "Zed"]] sampleInvoice.sequence_id = 0 ∧
    deleteExcelRow [[Cell.num 99, Cell.str "Zed"]] sampleInvoice =
      (true, [[Cell.num 99, Cell.str "Zed"]], 0) :=
  ⟨by decide, by decide,
   deleteExcelRow_miss_is_success [[Cell.num 99, Cell.str "Zed"]] sampleInvoice
     (by decide) (by decide)⟩

/-- C7: the PKCE verifier is consumed exactly once.  Whatever the first
`handleAuthorizationCallback` run's outcome (token exchange succeeding or
failing), the stored verifier is gone afterwards, so a subsequent run fails with
`missingVerifier` and performs zero token exchanges. -/
theorem verifier_single_use (code code2 : String) (ex ex2 : Option TokenResponse)
    (now now2 : Nat) (st : MsStorage) (hv : st.codeVerifier.isSome = true) :
    (handleAuthorizationCallback true code ex now st).store.codeVerifier = none ∧
    (handleAuthorizationCallback true code2 ex2 now2
        (handleAuthorizationCallback true code ex now st).store).outcome =
      some AuthError.missingVerifier ∧
    (handleAuthorizationCallback true code2 ex2 now2
        (handleAuthorizationCallback true code ex now st).store).exchangeCalls = 0 := by
  obtain ⟨v, hv'⟩ := Option.isSome_iff_exists.mp hv
  cases ex <;> simp [handleAuthorizationCallback, hv']

/-- Witness for C7: a concrete first exchange (successful) followed by a second
callback attempt. -/
theorem verifier_single_use_witness :
    (handleAuthorizationCallback true "c1" (some ⟨"tok", none, 3600⟩) 0
        ⟨some "ver", none⟩).store.codeVerifier = none ∧
    (handleAuthorizationCallback true "c2" none 5
        (handleAuthorizationCallback true "c1" (some ⟨"tok", none, 3600⟩) 0
          ⟨some "ver", none⟩).store).outcome = some AuthError.missingVerifier ∧
    (handleAuthorizationCallback true "c2" none 5
        (handleAuthorizationCallback true "c1" (some ⟨"tok", none, 3600⟩) 0
          ⟨some "ver", none⟩).store).exchangeCalls = 0 :=
  verifier_single_use "c1" "c2" (some ⟨"tok", none, 3600⟩) none 0 5
    ⟨some "ver", none⟩ (by decide)

/-- C8 counterexample: with a credential expiring at epoch-ms 400000,
`isAuthenticated` at `now = 200000` answers `true` although only 200 s — less
than the claimed ≥ 5-minute (300000 ms) buffer — remain before expiry (with that
buffer the claim requires `false`); and at `now = 500000` the call mutates the
stored credential state (it purges the token data), so it is not a pure
predicate. -/
theorem isAuthenticated_unbuffered_impure_counterexample :
    (isAuthenticated 200000 storeExp400).1 = true ∧
    ¬(200000 < 400000 - 300000) ∧
    (isAuthenticated 500000 storeExp400).2 ≠ storeExp400 := by
  decide

/-- C8 (amended): the current revision's `isAuthenticated` returns `true` iff a
credential exists and `now` is strictly before `expires_at || 0` — with no
buffer at all; it leaves storage untouched when it answers `true`, but when the
stored credential is expired it clears the token data as a side effect (it is
not pure).  (The part_006 middle revision `isAuthenticatedBuffered` is the one
that is pure with the 5-minute buffer.) -/
theorem isAuthenticated_no_buffer_impure (now : Nat) (st : MsStorage) :
    ((isAuthenticated now st).1 = true ↔
      ∃ td, st.tokenData = some td ∧ now < td.expires_at.getD 0) ∧
    ((isAuthenticated now st).1 = true → (isAuthenticated now st).2 = st) ∧
    (∀ td, st.tokenData = some td → td.expires_at.getD 0 ≤ now →
      (isAuthenticated now st).2 = clearTokenData st) := by
  rcases hst : st.tokenData with _ | td
  · have key : isAuthenticated now st = (false, st) := by
      simp only [isAuthenticated, hst]
    refine ⟨?_, ?_, ?_⟩
    · rw [key]
      constructor
      · intro hx; simp at hx
      · rintro ⟨td', htd', _⟩
        exact Option.noConfusion htd'
    · intro hx; rw [key] at hx; simp at hx
    · intro td' htd' _
      exact Option.noConfusion htd'
  · by_cases h : td.expires_at.getD 0 ≤ now
    · have key : isAuthenticated now st = (false, clearTokenData st) := by
        simp only [isAuthenticated, hst]
        rw [if_pos h]
      refine ⟨?_, ?_, ?_⟩
      · rw [key]
        constructor
        · intro hx; simp at hx
        · rintro ⟨td', htd', hlt⟩
          injection htd' with htd'
          exfalso
          subst htd'
          omega
      · intro hx; rw [key] at hx; simp at hx
      · intro td' _ _
        rw [key]
    · have hlt : now < td.expires_at.getD 0 := by omega
      have key : isAuthenticated now st = (true, st) := by
        simp only [isAuthenticated, hst]
        rw [if_neg h]
      refine ⟨?_, ?_, ?_⟩
      · rw [key]
        exact ⟨fun _ => ⟨td, rfl, hlt⟩, fun _ => rfl⟩
      · intro _; rw [key]
      · intro td' htd' hle
        injection htd' with htd'
        exfalso
        subst htd'
        omega

/-- Witness for C8's amended theorem: the credential expiring at 400000 counts as
authenticated at `now = 200000` (no buffer), and at `now = 500000` the run clears
the stored token data. -/
theorem isAuthenticated_no_buffer_impure_witness :
    (isAuthenticated 200000 storeExp400).1 = true ∧
    (isAuthenticated 500000 storeExp400).2 = clearTokenData storeExp400 :=
  ⟨(isAuthenticated_no_buffer_impure 200000 storeExp400).1.mpr
     ⟨⟨"tok", none, 3600, some 400000⟩, rfl, by decide⟩,
   (isAuthenticated_no_buffer_impure 500000 storeExp400).2.2
     ⟨"tok", none, 3600, some 400000⟩ rfl (by decide)⟩

/-- C9 counterexample: with every structured-table-creation attempt failing
(e.g. a persistent 4xx), `ensureExcelTableExists` performs all 3 attempts — it
does not fail immediately on a non-transient failure — and the delays it sleeps
between attempts are 2000 ms and 4000 ms, not the claimed 1 s/2 s/4 s schedule
(its first backoff is 2000 ms, not 1000 ms). -/
theorem tableCreation_backoff_counterexample :
    ensureExcelTableExistsRetry (fun _ => false) =
      ⟨false, 3, [2000, 4000]⟩ ∧
    (2000 : Nat) ≠ 1000 := by
  decide

/-- C9 (amended): each retryable workbook operation makes at most 3 attempts and
surfaces failure only after all of its attempts failed; the delays between
attempts are 2 s then 4 s for structured-table creation and 1 s then 2 s for the
table-row append loop and the direct worksheet-append fallback (a prefix of the
respective schedule, never more); table creation and worksheet append retry
every failure alike, and the table-row append loop does not retry a
non-`ItemNotFound` table failure — it switches to the worksheet fallback within
the same attempt, succeeding immediately when the fallback does. -/
theorem workbookRetry_policy (f g : Nat → Bool) (tout : Nat → TableAddOutcome)
    (fb : Nat → Bool) :
    ((ensureExcelTableExistsRetry f).attemptsMade ≤ 3 ∧
     ((ensureExcelTableExistsRetry f).delays = [] ∨
      (ensureExcelTableExistsRetry f).delays = [2000] ∨
      (ensureExcelTableExistsRetry f).delays = [2000, 4000]) ∧
     ((ensureExcelTableExistsRetry f).ok = false →
       f 0 = false ∧ f 1 = false ∧ f 2 = false)) ∧
    ((appendToWorksheetDirectlyRetry g).attemptsMade ≤ 3 ∧
     ((appendToWorksheetDirectlyRetry g).delays = [] ∨
      (appendToWorksheetDirectlyRetry g).delays = [1000] ∨
      (appendToWorksheetDirectlyRetry g).delays = [1000, 2000]) ∧
     ((appendToWorksheetDirectlyRetry g).ok = false →
       g 0 = false ∧ g 1 = false ∧ g 2 = false)) ∧
    ((appendRowToExcelRetry tout fb).tableAttempts ≤ 3 ∧
     ((appendRowToExcelRetry tout fb).delays = [] ∨
      (appendRowToExcelRetry tout fb).delays = [1000] ∨
      (appendRowToExcelRetry tout fb).delays = [1000, 2000]) ∧
     ((appendRowToExcelRetry tout fb).ok = false →
       tout 0 ≠ TableAddOutcome.ok ∧ tout 1 ≠ TableAddOutcome.ok ∧
         tout 2 ≠ TableAddOutcome.ok) ∧
     (tout 0 = TableAddOutcome.otherError → fb 0 = true →
       appendRowToExcelRetry tout fb = ⟨true, 1, [], 1⟩)) :=
  ⟨ensureTable_retry_policy f, worksheet_retry_policy g,
   appendRow_retry_policy tout fb⟩

/-- Witness for C9's amended theorem at concrete outcome sequences. -/
theorem workbookRetry_policy_witness :
    (ensureExcelTableExistsRetry (fun _ => false)).attemptsMade ≤ 3 ∧
    appendRowToExcelRetry (fun _ => TableAddOutcome.otherError) (fun _ => true) =
      ⟨true, 1, [], 1⟩ := by
  have h := workbookRetry_policy (fun _ => false) (fun _ => false)
    (fun _ => TableAddOutcome.otherError) (fun _ => true)
  exact ⟨h.1.1, h.2.2.2.2.2 rfl rfl⟩

/-- C10: the sharing-URL revision of `deleteFileFromOneDrive` issues no remote
DELETE request and leaves the drive state entirely unchanged, while telling the
caller `{success: true}` — for every file URL and every drive state (given a
valid token). -/
theorem deleteFileFromOneDrive_reports_success_without_deleting
    (url : String) (drive : List String) :
    deleteFileFromOneDrive true url drive = (⟨true, none, none⟩, drive, 0) := rfl

end InvoiceScanner
